import Mathlib

/-!
Shallow embedding of the botlib repository (src/stories.py and src/tg.py):
the controller/event/message layer and the Telegram transport adapter.
Python objects are modelled as Lean structures; the mutable controller tree
is an arena (a list of controllers indexed by position) with explicit state
passing; Python exceptions (`raise ValueError`) become `Except` errors.
-/

/-- Model of `stories.Button`: `action` defaults from the text.  The constructor logic
`self.action = action if action else text.lower()` uses Python truthiness, so
an explicitly supplied empty string also falls back to the lower-cased text. -/
structure Button where
  text : String
  action : String
deriving Repr, DecidableEq

/-- Python `str.lower`, as the character-wise ASCII lowering of the string
data (`Char.toLower` maps A-Z to a-z and fixes everything else, which agrees
with Python on the ASCII strings this repository uses). -/
def pyLower (s : String) : String := ⟨s.data.map Char.toLower⟩

/-- Model of `Button.__init__(text, action=None)` from src/stories.py:
`self.action = action if action else text.lower()` — both `None` and the
empty string are falsy. -/
def Button.make (text : String) (action : Option String) : Button :=
  { text := text
    action := match action with
      | some a => if a = "" then pyLower text else a
      | none => pyLower text }

/-- Model of `stories.OutMessage`: a singly linked chain of outbound messages.
Python field order: text, buttons, next, parse_mode, buttons_below,
edit_the_last.  The `next` pointer is the recursive occurrence. -/
inductive OutMessage where
  | mk (text : String) (buttons : List (List Button)) (next : Option OutMessage)
       (parse_mode : Option String) (buttons_below : Option (List (List Button)))
       (edit_the_last : Bool)

/-- The payload of one chain node: every field except the `next` pointer. -/
structure MsgCore where
  text : String
  buttons : List (List Button)
  parse_mode : Option String
  buttons_below : Option (List (List Button))
  edit_the_last : Bool
deriving Repr, DecidableEq

def OutMessage.core : OutMessage → MsgCore
  | .mk t b _ pm bb e => ⟨t, b, pm, bb, e⟩

/-- Model of `OutMessage.__add__`: walk to the tail of the left chain and attach the
right chain there; the head (and every interior node) of the left chain is
kept, which models Python returning `self` after mutating only the tail
`next` pointer. -/
def OutMessage.add : OutMessage → OutMessage → OutMessage
  | .mk t b none pm bb e, other => .mk t b (some other) pm bb e
  | .mk t b (some n) pm bb e, other => .mk t b (some (OutMessage.add n other)) pm bb e

/-- Flattened visiting order of a chain: the payloads of its nodes from head
to tail. -/
def OutMessage.flatten : OutMessage → List MsgCore
  | .mk t b none pm bb e => [⟨t, b, pm, bb, e⟩]
  | .mk t b (some n) pm bb e => ⟨t, b, pm, bb, e⟩ :: OutMessage.flatten n

/-- Model of `stories.Event` and its three subclasses `ButtonAction`, `Message`,
`Command`; each carries `user_id`. -/
inductive Event where
  | buttonAction (user_id : Nat) (name : String)
  | message (user_id : Nat) (text : String)
  | command (user_id : Nat) (name : String) (args : List String)
deriving Repr, DecidableEq

/-- The kinds of `ValueError` raised by the dialog layer.  Python raises
`ValueError(msg)`; the message text is recovered by `DialogError.message`. -/
inductive DialogError where
  | cantCloseRoot
  | unexpectedEvent
  | invalidController
  | fuelExhausted
deriving Repr, DecidableEq

/-- The `str(e)` of each modelled `ValueError` (the literals passed to
`raise ValueError(...)` in src/stories.py). -/
def DialogError.message : DialogError → String
  | .cantCloseRoot => "Can\x27t close root controller"
  | .unexpectedEvent => "Unexpected event"
  | .invalidController => "invalid controller reference"
  | .fuelExhausted => "fuel exhausted"

/-- Which concrete Python class a controller node is: the base `Controller`
or a `YesNoController` (which adds the `result` field and overrides
`process_event`). -/
inductive CtrlKind where
  | base
  | yesno (result : Option Bool)
deriving Repr, DecidableEq

/-- Model of `stories.Controller`: one node of the dialog tree.  The Python object
graph is modelled as an arena (`TreeState`); `parent` and `child` are
optional indices into it instead of object references. -/
structure Controller where
  parent : Option Nat
  child : Option Nat
  text : Option String
  buttons : List (List Button)
  buttons_below : Option (List (List Button))
  parse_mode : Option String
  kind : CtrlKind
deriving Repr, DecidableEq

/-- The arena holding every controller of one user session; a controller id
is an index into this list. -/
abbrev TreeState := List Controller

/-- The `child` pointer of node `i`, when `i` is a live node with a child. -/
def TreeState.childStep (s : TreeState) (i : Nat) : Option Nat :=
  match s[i]? with
  | some c => c.child
  | none => none

/-- Model of `self.parent.child = None`: clear the `child` field of node `p`. -/
def TreeState.clearChild (s : TreeState) (p : Nat) : TreeState :=
  match s[p]? with
  | some c => s.set p { c with child := none }
  | none => s

/-- The single-node `OutMessage` a childless controller builds in
`Controller.render`: `OutMessage(self.text if self.text else "",
self.buttons, parse_mode=self.parse_mode, buttons_below=self.buttons_below)`. -/
def Controller.leafMessage (c : Controller) : OutMessage :=
  .mk (match c.text with | some t => t | none => "") c.buttons none
    c.parse_mode c.buttons_below false

/-- Model of `Controller.render`: delegate along `child` pointers to the active leaf,
then build that leaf node message.  `fuel` bounds the recursion depth (the
Python version diverges on a cyclic `child` chain). -/
def Controller.render : Nat → TreeState → Nat → Option OutMessage
  | 0, _, _ => none
  | fuel + 1, s, i =>
    match s[i]? with
    | none => none
    | some c =>
      match c.child with
      | some j => Controller.render fuel s j
      | none => some c.leafMessage

/-- Model of `Controller.get_current_active`: follow `child` pointers to the active
leaf and return its id.  `fuel` bounds the recursion depth. -/
def Controller.get_current_active : Nat → TreeState → Nat → Option Nat
  | 0, _, _ => none
  | fuel + 1, s, i =>
    match s[i]? with
    | none => none
    | some c =>
      match c.child with
      | some j => Controller.get_current_active fuel s j
      | none => some i

/-- Default `Controller.on_child_closed`: `return self.render()`.
`YesNoController` does not override it. -/
def Controller.on_child_closed (fuel : Nat) (s : TreeState) (p : Nat)
    (_closedChild : Nat) : Option OutMessage :=
  Controller.render fuel s p

/-- Model of `Controller.close`: raise on the root, otherwise set `parent.child` to
`None` and return `parent.on_child_closed(self)`.  Returns the updated arena
together with the produced message. -/
def Controller.close (fuel : Nat) (s : TreeState) (i : Nat) :
    Except DialogError (TreeState × OutMessage) :=
  match s[i]? with
  | none => .error .invalidController
  | some c =>
    match c.parent with
    | none => .error .cantCloseRoot
    | some p =>
      let s1 := s.clearChild p
      match Controller.on_child_closed fuel s1 p i with
      | some out => .ok (s1, out)
      | none => .error .fuelExhausted

/-- Model of `process_event`, dispatched on the dynamic class of node `i`: the base
`Controller.process_event` re-renders; `YesNoController.process_event`
accepts only a `ButtonAction` named yes or no, stores
`self.result = e.name == "yes"` and closes, and raises on everything else. -/
def Controller.process_event (fuel : Nat) (s : TreeState) (i : Nat) (e : Event) :
    Except DialogError (TreeState × OutMessage) :=
  match s[i]? with
  | none => .error .invalidController
  | some c =>
    match c.kind with
    | .base =>
      match Controller.render fuel s i with
      | some out => .ok (s, out)
      | none => .error .fuelExhausted
    | .yesno _ =>
      match e with
      | .buttonAction _ name =>
        if name = "yes" ∨ name = "no" then
          let s1 := s.set i { c with kind := .yesno (some (name == "yes")) }
          Controller.close fuel s1 i
        else .error .unexpectedEvent
      | _ => .error .unexpectedEvent

/-- Model of `tg.TgIncomingMsg`. -/
structure TgIncomingMsg where
  message_id : Option Nat
  user_id : Int
  user_name : String
  text : String
  keyboard_callback : Option String
deriving Repr, DecidableEq

/-- Model of `tg.InlineKeyboardButton` (the adapter-level record, not the SDK one). -/
structure InlineKeyboardButton where
  text : String
  callback_data : String
deriving Repr, DecidableEq

/-- Model of `tg.TgOutgoingMsg`. -/
structure TgOutgoingMsg where
  user_id : Int
  user_name : Option String
  text : String
  inline_keyboard : Option (List (List InlineKeyboardButton))
  keyboard_below : Option (List (List String))
  parse_mode : Option String
  edit_message_with_id : Option Nat
deriving Repr, DecidableEq

/-- The telegram-SDK message attached to an update or callback query: only
the two fields the handlers read (`message_id`, `text`). -/
structure TgSdkMessage where
  message_id : Nat
  text : Option String
deriving Repr, DecidableEq

/-- Model of `telegram.CallbackQuery`, restricted to the fields read by
`_callback_query_handler`: `message` and `data`.  `query.answer()` is
modelled as an emitted `TgAction`. -/
structure CallbackQuery where
  message : Option TgSdkMessage
  data : Option String
deriving Repr, DecidableEq

/-- Model of `update.effective_chat`, restricted to `id` and `username`. -/
structure Chat where
  id : Int
  username : Option String
deriving Repr, DecidableEq

/-- Model of `telegram.Update`, restricted to the fields the two handlers read. -/
structure Update where
  callback_query : Option CallbackQuery
  effective_chat : Option Chat
  message : Option TgSdkMessage
deriving Repr, DecidableEq

/-- The observable side effects a handler performs, in order: protocol
acknowledgment (`query.answer()`), log lines, the error reply of
`_default_handler`, and the provider calls `_send_message` resolves to
(`send_message` or `edit_message_text`). -/
inductive TgAction where
  | answerCallback
  | logWarning
  | logException
  | logInfo (text : String)
  | replyText (text : String)
  | sendMessage (m : TgOutgoingMsg)
  | editMessage (m : TgOutgoingMsg)
deriving Repr, DecidableEq

/-- The dialog turn wired into `Tg.on_message`: returns the reply list or
raises a `ValueError` (modelled as `Except.error`). -/
def OnMessage := TgIncomingMsg → Except DialogError (List TgOutgoingMsg)

/-- Model of `TelegramReal._send_message`: an outgoing message with
`edit_message_with_id` set becomes `edit_message_text`, any other becomes
`send_message`. -/
def sendAction (m : TgOutgoingMsg) : TgAction :=
  if m.edit_message_with_id.isSome then .editMessage m else .sendMessage m

/-- Model of `TelegramReal._send_messages`: one provider call per outgoing message,
in list order. -/
def sendMessagesActions (ms : List TgOutgoingMsg) : List TgAction :=
  ms.map sendAction

/-- A handler either returns normally, or escapes with a Python exception
after having performed some actions (used to model the unbound-local slip in
`_default_handler`). -/
inductive HandlerResult where
  | ok (actions : List TgAction)
  | crash (error : String) (actions : List TgAction)
deriving Repr, DecidableEq

/-- Model of `TelegramReal._default_handler` (src/tg.py lines 110-131).  Faithful to
the source, including its slip: when `on_message` raises `ValueError` the
handler replies `"Error: ..."` and then falls through to
`await self._send_messages(replies)` with the local `replies` never assigned,
raising `UnboundLocalError`. -/
def default_handler (onMessage : OnMessage) (update : Update) : HandlerResult :=
  match update.effective_chat with
  | none => .ok [.logWarning]
  | some chat =>
    match chat.username with
    | none => .ok [.logWarning]
    | some uname =>
      match update.message with
      | none => .ok [.logWarning]
      | some msg =>
        match msg.text with
        | none => .ok [.logWarning]
        | some txt =>
          let message : TgIncomingMsg :=
            ⟨some msg.message_id, chat.id, uname, txt, none⟩
          match onMessage message with
          | .ok replies => .ok (sendMessagesActions replies)
          | .error e => .crash "UnboundLocalError"
              [.replyText ("Error: " ++ e.message)]

/-- The in-place transcript rewrite of `_callback_query_handler` (src/tg.py
lines 163-179): Python collects `edits = [m for m in replies if
m.edit_message_with_id is not None]` and mutates `edits[0]` inside the
`replies` list; equivalently, the first edit-flagged element is replaced and
every other element is kept.  `prev` is
`update.callback_query.message.text` when present: the rewritten text is
`"\n".join([prev, "", edit.text])`, and `parse_mode` is forced to
`"Markdown"`. -/
def transcriptLines (prev : Option String) : List String :=
  match prev with
  | some pt => [pt, ""]
  | none => []

def rewriteFirstEdit (prev : Option String) : List TgOutgoingMsg → List TgOutgoingMsg
  | [] => []
  | m :: rest =>
    if m.edit_message_with_id.isSome then
      { m with
        text := String.intercalate "\n" (transcriptLines prev ++ [m.text])
        parse_mode := some "Markdown" } :: rest
    else m :: rewriteFirstEdit prev rest

/-- Model of `query.message.message_id if (query.message is not None) else None`. -/
def msgIdOf (q : CallbackQuery) : Option Nat :=
  match q.message with
  | some qm => some qm.message_id
  | none => none

/-- The prior visible text of the triggering message:
`update.callback_query.message.text` when the query, its message and its
text are all present, else absent. -/
def prevTextOf (q : CallbackQuery) : Option String :=
  match q.message with
  | some qm => qm.text
  | none => none

/-- Model of `s = "PREV + " if lines else ""` of the handler log line. -/
def prevMarker (prev : Option String) : String :=
  match prev with
  | some _ => "PREV + "
  | none => ""

/-- The dialog part of `_callback_query_handler` (src/tg.py lines 157-180):
on `ValueError` the handler only logs; otherwise the first edit-flagged
reply (if any) is rewritten via `rewriteFirstEdit`, an info line is logged,
and the replies are sent. -/
def callback_dialog_turn (res : Except DialogError (List TgOutgoingMsg))
    (prev : Option String) : List TgAction :=
  match res with
  | .error _ => [.logException]
  | .ok replies =>
    match replies.find? (fun m => m.edit_message_with_id.isSome) with
    | none => sendMessagesActions replies
    | some edit =>
      TgAction.logInfo ("replacing text: " ++ prevMarker prev ++ edit.text) ::
        sendMessagesActions (rewriteFirstEdit prev replies)

/-- Model of `TelegramReal._callback_query_handler` (src/tg.py lines 133-180) as the
ordered list of actions it performs.  `query.answer()` is awaited right
after the `query is None` guard, before the chat checks and before the
dialog turn. -/
def callback_query_handler (onMessage : OnMessage) (update : Update) : List TgAction :=
  match update.callback_query with
  | none => [.logWarning]
  | some query =>
    TgAction.answerCallback ::
      (match update.effective_chat with
       | none => [.logWarning]
       | some chat =>
         match chat.username with
         | none => [.logWarning]
         | some uname =>
           callback_dialog_turn
             (onMessage ⟨msgIdOf query, chat.id, uname, "", query.data⟩)
             (prevTextOf query))

/-! ## Theorems -/

/-- Structural induction over an `OutMessage` chain. -/
theorem OutMessage.chainInduction (P : OutMessage → Prop)
    (h1 : ∀ t b pm bb e, P (.mk t b none pm bb e))
    (h2 : ∀ t b n pm bb e, P n → P (.mk t b (some n) pm bb e)) :
    ∀ m, P m
  | .mk t b none pm bb e => h1 t b pm bb e
  | .mk t b (some n) pm bb e =>
      h2 t b n pm bb e (OutMessage.chainInduction P h1 h2 n)

/-- Concatenation appends the right chain after the whole left chain. -/
theorem OutMessage.flatten_add (a b : OutMessage) :
    (a.add b).flatten = a.flatten ++ b.flatten := by
  induction a using OutMessage.chainInduction with
  | h1 t bt pm bb e => simp [OutMessage.add, OutMessage.flatten]
  | h2 t bt n pm bb e ih => simp [OutMessage.add, OutMessage.flatten, ih]

/-- Concatenation keeps the head node payload: the model of `__add__`
returning `self`. -/
theorem OutMessage.core_add (a b : OutMessage) : (a.add b).core = a.core := by
  cases a with
  | mk t bt n pm bb e => cases n <;> rfl

/-- C4: `A + B` appends the chain `B` after the tail of `A` (the flattened
order of `A + B` is the payloads of `A` then those of `B`), keeps the head
of `A` (the Python method returns `self`, mutating only the tail `next`
pointer, which the pure model renders as: every payload of `A` is preserved
in place), and concatenation is associative in effect: `(A+B)+C` and
`A+(B+C)` flatten to the same visiting order. -/
theorem outmessage_add_appends_and_assoc (A B C : OutMessage) :
    (A.add B).flatten = A.flatten ++ B.flatten ∧
    (A.add B).core = A.core ∧
    ((A.add B).add C).flatten = (A.add (B.add C)).flatten := by
  refine ⟨OutMessage.flatten_add A B, OutMessage.core_add A B, ?_⟩
  simp [OutMessage.flatten_add, List.append_assoc]

/-- C1: `close()` on a controller whose `parent` is `None` fails with the
structural `ValueError` and yields no `OutMessage`, for every arena, fuel,
text, buttons and child wiring of the root. -/
theorem close_on_root_fails (fuel : Nat) (s : TreeState) (i : Nat) (c : Controller)
    (hc : s[i]? = some c) (hroot : c.parent = none) :
    Controller.close fuel s i = .error .cantCloseRoot := by
  simp [Controller.close, hc, hroot]

/-- A one-node arena: a root with text, buttons and a dangling child id. -/
def rootOnlyState : TreeState :=
  [{ parent := none, child := none, text := some "root",
     buttons := [[Button.make "Yes" none]], buttons_below := none,
     parse_mode := some "HTML", kind := .base }]

/-- C1 witness: the theorem applied to the concrete root of `rootOnlyState`. -/
theorem close_on_root_fails_witness :
    Controller.close 5 rootOnlyState 0 = .error .cantCloseRoot :=
  close_on_root_fails 5 rootOnlyState 0 _ rfl rfl

/-- C9 counterexample: an explicitly supplied action is not always kept
verbatim.  `Button("Yes", "")` ends up with action `"yes"`, not `""`:
`action if action else text.lower()` treats the empty string as absent. -/
theorem button_empty_override_not_kept :
    Button.make "Yes" (some "") = { text := "Yes", action := "yes" } ∧
    ¬ (Button.make "Yes" (some "")).action = "" :=
  ⟨rfl, by decide⟩

/-- C9 amended: a `Button` built without an action gets the lower-cased
text, and an explicitly supplied NON-EMPTY action is kept verbatim; a
supplied empty string is falsy in Python and falls back to the lower-cased
text. -/
theorem button_action_default_and_nonempty_override (t a : String) (ha : a ≠ "") :
    (Button.make t none).action = pyLower t ∧
    (Button.make t (some a)).action = a := by
  refine ⟨rfl, ?_⟩
  simp [Button.make, ha]

/-- C9 witness: `Button("Yes")` gets action `"yes"`; `Button("Yes", "Y")`
keeps `"Y"`. -/
theorem button_action_default_and_nonempty_override_witness :
    ("Y" : String) ≠ "" ∧
    ((Button.make "Yes" none).action = pyLower "Yes" ∧
     (Button.make "Yes" (some "Y")).action = "Y") :=
  ⟨by decide, button_action_default_and_nonempty_override "Yes" "Y" (by decide)⟩

/-- C2: `close()` on a non-root controller `i` whose parent `p` points back
at it clears `parent.child`, invokes the default `on_child_closed` (which
re-renders the parent), and a later `render()` on the parent yields the
parent leaf message itself, no longer reaching the closed child. -/
theorem close_nonroot_detaches (fuel : Nat) (s : TreeState) (i p : Nat)
    (c pc : Controller) (hc : s[i]? = some c) (hp : c.parent = some p)
    (hpc : s[p]? = some pc) (hchild : pc.child = some i) (hfuel : 1 ≤ fuel) :
    Controller.close fuel s i =
      .ok (s.set p { pc with child := none },
           Controller.leafMessage { pc with child := none }) ∧
    (s.set p { pc with child := none })[p]? = some { pc with child := none } ∧
    Controller.render fuel (s.set p { pc with child := none }) p =
      some (Controller.leafMessage { pc with child := none }) := by
  obtain ⟨f, rfl⟩ : ∃ f, fuel = f + 1 := ⟨fuel - 1, by omega⟩
  have hplen : p < s.length := (List.getElem?_eq_some.mp hpc).1
  have hset : (s.set p { pc with child := none })[p]? =
      some { pc with child := none } :=
    List.getElem?_set_eq_of_lt _ hplen
  have hclear : s.clearChild p = s.set p { pc with child := none } := by
    simp [TreeState.clearChild, hpc]
  have hrender : Controller.render (f + 1) (s.set p { pc with child := none }) p =
      some (Controller.leafMessage { pc with child := none }) := by
    simp [Controller.render, hset]
  refine ⟨?_, hset, hrender⟩
  simp [Controller.close, hc, hp, hclear, Controller.on_child_closed, hrender]

/-- Concrete parent controller for the C2 witness. -/
def wParent : Controller :=
  { parent := none, child := some 1, text := some "parent menu", buttons := [],
    buttons_below := none, parse_mode := none, kind := .base }

/-- Concrete child controller for the C2 witness. -/
def wChild : Controller :=
  { parent := some 0, child := none, text := some "child dialog", buttons := [],
    buttons_below := none, parse_mode := none, kind := .base }

/-- Concrete two-node arena (root 0 with active child 1) for the C2 witness. -/
def parentChildState : TreeState := [wParent, wChild]

/-- C2 witness: closing the child of `parentChildState` detaches it and
re-renders the parent. -/
theorem close_nonroot_detaches_witness :
    Controller.close 1 parentChildState 1 =
      .ok (parentChildState.set 0 { wParent with child := none },
           Controller.leafMessage { wParent with child := none }) ∧
    (parentChildState.set 0 { wParent with child := none })[0]? =
      some { wParent with child := none } ∧
    Controller.render 1 (parentChildState.set 0 { wParent with child := none }) 0 =
      some (Controller.leafMessage { wParent with child := none }) :=
  close_nonroot_detaches 1 parentChildState 1 0 wChild wParent rfl rfl rfl rfl
    (by decide)

/-- A decidable acyclicity certificate for the child chain of an arena:
every live child pointer stays inside the arena and strictly decreases the
measure `m`.  Every finite acyclic controller tree is certified by such a measure
(for example, the depth of the subtree below each node). -/
def TreeState.acyclicStep (s : TreeState) (m : Nat → Nat) (i : Nat) : Bool :=
  match s.childStep i with
  | some j => decide (j < s.length) && decide (m j < m i)
  | none => true

/-- C3: on a finite acyclic controller tree — witnessed by a measure that
decreases along child links — `get_current_active` called on any live node
returns a controller whose `child` is `None` (the active leaf). -/
theorem get_current_active_is_leaf (s : TreeState) (m : Nat → Nat)
    (hstep : ∀ i, i < s.length → s.acyclicStep m i = true)
    (fuel i : Nat) (hi : i < s.length) (hfuel : m i < fuel) :
    ∃ j c, Controller.get_current_active fuel s i = some j ∧
      s[j]? = some c ∧ c.child = none := by
  induction fuel generalizing i with
  | zero => omega
  | succ f ih =>
    have hc : s[i]? = some s[i] := List.getElem?_eq_getElem hi
    cases hch : (s[i]).child with
    | none =>
      exact ⟨i, s[i], by simp [Controller.get_current_active, hc, hch], hc, hch⟩
    | some j =>
      have hstepi := hstep i hi
      unfold TreeState.acyclicStep TreeState.childStep at hstepi
      rw [hc] at hstepi
      simp only [hch, Bool.and_eq_true, decide_eq_true_eq] at hstepi
      obtain ⟨hj, hmj⟩ := hstepi
      obtain ⟨k, ck, hk, hkc, hknone⟩ := ih j hj (by omega)
      exact ⟨k, ck, by simp [Controller.get_current_active, hc, hch, hk], hkc, hknone⟩

/-- C3 witness: the theorem applied to `parentChildState` (root 0, leaf 1)
with the measure `fun k => 2 - k`. -/
theorem get_current_active_is_leaf_witness :
    (∀ i, i < parentChildState.length →
      parentChildState.acyclicStep (fun k => 2 - k) i = true) ∧
    ∃ j c, Controller.get_current_active 3 parentChildState 0 = some j ∧
      parentChildState[j]? = some c ∧ c.child = none :=
  ⟨by decide,
   get_current_active_is_leaf parentChildState (fun k => 2 - k) (by decide)
     3 0 (by decide) (by decide)⟩

/-- C5: for a `YesNoController` at node `i` with parent `p`: `process_event`
on a `ButtonAction` named yes or no stores `result = (e.name == "yes")` and
then closes itself — the parent child pointer is cleared while the stored
result is visible to the parent hook, and the default `on_child_closed`
renders the parent leaf message; any other event (`Message`, `Command`, or
a `ButtonAction` with another name) raises `ValueError("Unexpected event")`
and returns no new state. -/
theorem yesno_process_event (fuel : Nat) (s : TreeState) (i p : Nat)
    (c pc : Controller) (r0 : Option Bool) (uid : Nat)
    (hc : s[i]? = some c) (hk : c.kind = .yesno r0) (hp : c.parent = some p)
    (hpc : s[p]? = some pc) (hpi : p ≠ i) (hfuel : 1 ≤ fuel) :
    (∀ name, name = "yes" ∨ name = "no" →
      Controller.process_event fuel s i (.buttonAction uid name) =
        .ok ((s.set i { c with kind := .yesno (some (name == "yes")) }).set p
               { pc with child := none },
             Controller.leafMessage { pc with child := none }) ∧
      ((s.set i { c with kind := .yesno (some (name == "yes")) }).set p
          { pc with child := none })[i]? =
        some { c with kind := .yesno (some (name == "yes")) } ∧
      ((s.set i { c with kind := .yesno (some (name == "yes")) }).set p
          { pc with child := none })[p]? = some { pc with child := none }) ∧
    (∀ name, ¬ (name = "yes" ∨ name = "no") →
      Controller.process_event fuel s i (.buttonAction uid name) =
        .error .unexpectedEvent) ∧
    (∀ t, Controller.process_event fuel s i (.message uid t) =
      .error .unexpectedEvent) ∧
    (∀ nm args, Controller.process_event fuel s i (.command uid nm args) =
      .error .unexpectedEvent) := by
  obtain ⟨f, rfl⟩ : ∃ f, fuel = f + 1 := ⟨fuel - 1, by omega⟩
  obtain ⟨cp, cc, ct, cb, cbb, cpm, ck⟩ := c
  simp only at hp hk
  subst hp
  subst hk
  have hilen : i < s.length := (List.getElem?_eq_some.mp hc).1
  have hplen : p < s.length := (List.getElem?_eq_some.mp hpc).1
  refine ⟨?_, ?_, ?_, ?_⟩
  · intro name hname
    have h1 : (s.set i ⟨some p, cc, ct, cb, cbb, cpm,
        .yesno (some (name == "yes"))⟩)[i]? =
        some ⟨some p, cc, ct, cb, cbb, cpm, .yesno (some (name == "yes"))⟩ :=
      List.getElem?_set_eq_of_lt _ hilen
    have h2 : (s.set i ⟨some p, cc, ct, cb, cbb, cpm,
        .yesno (some (name == "yes"))⟩)[p]? = some pc := by
      rw [List.getElem?_set_ne (Ne.symm hpi)]; exact hpc
    have hplen1 : p < (s.set i ⟨some p, cc, ct, cb, cbb, cpm,
        .yesno (some (name == "yes"))⟩).length := by simpa using hplen
    have h3 : ((s.set i ⟨some p, cc, ct, cb, cbb, cpm,
        .yesno (some (name == "yes"))⟩).set p { pc with child := none })[p]? =
        some { pc with child := none } :=
      List.getElem?_set_eq_of_lt _ hplen1
    have h4 : ((s.set i ⟨some p, cc, ct, cb, cbb, cpm,
        .yesno (some (name == "yes"))⟩).set p { pc with child := none })[i]? =
        some ⟨some p, cc, ct, cb, cbb, cpm, .yesno (some (name == "yes"))⟩ := by
      rw [List.getElem?_set_ne hpi]; exact h1
    have hclear : TreeState.clearChild
        (s.set i ⟨some p, cc, ct, cb, cbb, cpm, .yesno (some (name == "yes"))⟩) p =
        (s.set i ⟨some p, cc, ct, cb, cbb, cpm,
          .yesno (some (name == "yes"))⟩).set p { pc with child := none } := by
      simp [TreeState.clearChild, h2]
    refine ⟨?_, h4, h3⟩
    simp [Controller.process_event, hc, hname, Controller.close, h1, hclear,
      Controller.on_child_closed, Controller.render, h3]
  · intro name hname
    simp [Controller.process_event, hc, hname]
  · intro t
    simp [Controller.process_event, hc]
  · intro nm args
    simp [Controller.process_event, hc]

/-- Model of `YesNoController.__init__(parent, question)`: calls
`Controller.__init__` with the question text and the yes/no button row;
`result` starts as `None` (here: the `yesno none` kind). -/
def YesNoController.make (parent : Nat) (question : String) : Controller :=
  { parent := some parent, child := none, text := some question,
    buttons := [[Button.make "Yes" (some "yes"), Button.make "No" (some "no")]],
    buttons_below := none, parse_mode := none, kind := .yesno none }

/-- Concrete root for the C5 witness. -/
def wRoot : Controller :=
  { parent := none, child := some 1, text := some "main menu", buttons := [],
    buttons_below := none, parse_mode := none, kind := .base }

/-- Concrete arena for the C5 witness: root 0 showing a fresh
`YesNoController` at 1 asking `"Confirm?"`. -/
def yesnoState : TreeState := [wRoot, YesNoController.make 0 "Confirm?"]

/-- C5 witness: pressing yes on the concrete `YesNoController` stores
`result = True`, detaches it from the root and renders the root; a free-text
message instead raises the unexpected-event error. -/
theorem yesno_process_event_witness :
    (Controller.process_event 1 yesnoState 1 (.buttonAction 7 "yes") =
      .ok ((yesnoState.set 1
              { YesNoController.make 0 "Confirm?" with
                kind := .yesno (some ("yes" == "yes")) }).set 0
             { wRoot with child := none },
           Controller.leafMessage { wRoot with child := none }) ∧
     ((yesnoState.set 1
        { YesNoController.make 0 "Confirm?" with
          kind := .yesno (some ("yes" == "yes")) }).set 0
          { wRoot with child := none })[1]? =
       some { YesNoController.make 0 "Confirm?" with
              kind := .yesno (some ("yes" == "yes")) } ∧
     ((yesnoState.set 1
        { YesNoController.make 0 "Confirm?" with
          kind := .yesno (some ("yes" == "yes")) }).set 0
          { wRoot with child := none })[0]? =
       some { wRoot with child := none }) ∧
    Controller.process_event 1 yesnoState 1 (.message 7 "hello") =
      .error .unexpectedEvent :=
  ⟨(yesno_process_event 1 yesnoState 1 0 (YesNoController.make 0 "Confirm?")
      wRoot none 7 rfl rfl rfl rfl (by decide) (by decide)).1 "yes" (Or.inl rfl),
   (yesno_process_event 1 yesnoState 1 0 (YesNoController.make 0 "Confirm?")
      wRoot none 7 rfl rfl rfl rfl (by decide) (by decide)).2.2.1 "hello"⟩

/-- Joining `[prev, "", new]` with newlines gives the previous text, an empty line, then
the new text. -/
theorem intercalate_prev_sep (a t : String) :
    String.intercalate "\n" [a, "", t] = a ++ "\n\n" ++ t := by
  simp [String.intercalate, String.intercalate.go]
  ext1
  simp [String.data_append]

/-- Lemma: `rewriteFirstEdit` rewrites exactly the reply `find?` locates — the
first edit-flagged one — giving it the joined transcript text and the
forced `"Markdown"` parse mode, and leaves every other position of the
reply list untouched. -/
theorem rewriteFirstEdit_spec (prev : Option String) (replies : List TgOutgoingMsg)
    (e : TgOutgoingMsg)
    (hfind : replies.find? (fun m => m.edit_message_with_id.isSome) = some e) :
    ∃ k, replies[k]? = some e ∧
      (rewriteFirstEdit prev replies)[k]? =
        some { e with
          text := String.intercalate "\n" (transcriptLines prev ++ [e.text])
          parse_mode := some "Markdown" } ∧
      ∀ j : Nat, j ≠ k → (rewriteFirstEdit prev replies)[j]? = replies[j]? := by
  induction replies with
  | nil => simp [List.find?] at hfind
  | cons m rest ih =>
    by_cases hm : m.edit_message_with_id.isSome = true
    · simp only [List.find?, hm] at hfind
      obtain rfl : m = e := by simpa using hfind
      refine ⟨0, by simp, by simp [rewriteFirstEdit, hm], ?_⟩
      intro j hj
      obtain ⟨j', rfl⟩ : ∃ j', j = j' + 1 := ⟨j - 1, by omega⟩
      simp [rewriteFirstEdit, hm]
    · have hm' : m.edit_message_with_id.isSome = false := by simpa using hm
      simp only [List.find?, hm'] at hfind
      obtain ⟨k, h1, h2, h3⟩ := ih hfind
      refine ⟨k + 1, by simpa using h1, by simpa [rewriteFirstEdit, hm'] using h2, ?_⟩
      intro j hj
      cases j with
      | zero => simp [rewriteFirstEdit, hm']
      | succ j' => simp [rewriteFirstEdit, hm', h3 j' (by omega)]

/-- Provider send/edit calls are never the protocol acknowledgment. -/
theorem sendMessagesActions_no_answer (ms : List TgOutgoingMsg) :
    (sendMessagesActions ms).countP
      (fun a => decide (a = TgAction.answerCallback)) = 0 := by
  rw [List.countP_eq_zero]
  intro a ha
  simp only [sendMessagesActions, List.mem_map] at ha
  obtain ⟨m, _, rfl⟩ := ha
  simp [sendAction]
  split <;> simp

/-- The dialog part of the callback handler never acknowledges. -/
theorem callback_dialog_turn_no_answer (res : Except DialogError (List TgOutgoingMsg))
    (prev : Option String) :
    (callback_dialog_turn res prev).countP
      (fun a => decide (a = TgAction.answerCallback)) = 0 := by
  cases res with
  | error e => rfl
  | ok replies =>
    unfold callback_dialog_turn
    cases hf : replies.find? (fun m => m.edit_message_with_id.isSome) with
    | none =>
      simp only [hf]
      exact sendMessagesActions_no_answer replies
    | some edit =>
      simp only [hf, List.countP_cons]
      simp [sendMessagesActions_no_answer]

/-- C6: for every update that carries a callback query, the handler emits
the protocol acknowledgment `query.answer()` exactly once — whatever the
chat fields, whether the dialog turn changes anything, and even when the
controller raises a `ValueError`. -/
theorem callback_answered_exactly_once (onMessage : OnMessage) (update : Update)
    (q : CallbackQuery) (hq : update.callback_query = some q) :
    (callback_query_handler onMessage update).countP
      (fun a => decide (a = TgAction.answerCallback)) = 1 := by
  unfold callback_query_handler
  rw [hq]
  rcases hchat : update.effective_chat with _ | chat
  · rfl
  · rcases huser : chat.username with _ | uname
    · simp [hchat, huser, List.countP_cons]
    · simp [hchat, huser, List.countP_cons, callback_dialog_turn_no_answer]

/-- Concrete callback update (with a prior message) for the C6 witness. -/
def cbUpdateOk : Update :=
  { callback_query := some ⟨some ⟨42, some "old text"⟩, some "yes"⟩,
    effective_chat := some ⟨10, some "alice"⟩, message := none }

/-- C6 witness: one acknowledgment on a concrete callback update whose
dialog turn raises (no visible change at all). -/
theorem callback_answered_exactly_once_witness :
    (callback_query_handler (fun _ => .error .unexpectedEvent) cbUpdateOk).countP
      (fun a => decide (a = TgAction.answerCallback)) = 1 :=
  callback_answered_exactly_once (fun _ => .error .unexpectedEvent) cbUpdateOk
    ⟨some ⟨42, some "old text"⟩, some "yes"⟩ rfl

/-- Concrete text update for the C7 failing input. -/
def textUpdate : Update :=
  { callback_query := none, effective_chat := some ⟨10, some "alice"⟩,
    message := some ⟨42, some "hello"⟩ }

/-- C7: evaluating both handlers at a dialog turn that raises
`ValueError("Unexpected event")`.  The callback handler conforms to the
claim (acknowledges, logs, sends nothing), but `_default_handler` does not:
it replies `"Error: Unexpected event"` to the user — an outbound send — and
then reaches `await self._send_messages(replies)` with the local variable
`replies` never assigned, raising `UnboundLocalError` (a crash), because the
`except ValueError` branch does not return. -/
theorem dialog_error_default_handler_crashes :
    default_handler (fun _ => .error .unexpectedEvent) textUpdate =
      .crash "UnboundLocalError" [.replyText ("Error: " ++ "Unexpected event")] ∧
    callback_query_handler (fun _ => .error .unexpectedEvent) cbUpdateOk =
      [.answerCallback, .logException] :=
  ⟨rfl, rfl⟩

/-- C8: on a callback-query turn whose triggering message had prior visible
text `prev`, when the reply list contains an edit-flagged reply, the handler
rewrites the first such reply in place: its text becomes the previous text,
an empty separator line, then the new text, accumulating a transcript
rather than overwriting; the rewritten list is then sent. -/
theorem callback_edit_accumulates_transcript (onMessage : OnMessage)
    (update : Update) (q : CallbackQuery) (qm : TgSdkMessage) (prev : String)
    (chat : Chat) (uname : String) (replies : List TgOutgoingMsg)
    (e : TgOutgoingMsg)
    (hq : update.callback_query = some q) (hqm : q.message = some qm)
    (hprev : qm.text = some prev) (hchat : update.effective_chat = some chat)
    (huname : chat.username = some uname)
    (honm : onMessage ⟨some qm.message_id, chat.id, uname, "", q.data⟩ = .ok replies)
    (hfind : replies.find? (fun m => m.edit_message_with_id.isSome) = some e) :
    callback_query_handler onMessage update =
      TgAction.answerCallback ::
        TgAction.logInfo ("replacing text: " ++ prevMarker (some prev) ++ e.text) ::
        sendMessagesActions (rewriteFirstEdit (some prev) replies) ∧
    ∃ k : Nat, replies[k]? = some e ∧
      (rewriteFirstEdit (some prev) replies)[k]? =
        some { e with
          text := prev ++ "\n\n" ++ e.text
          parse_mode := some "Markdown" } := by
  have hmsgid : msgIdOf q = some qm.message_id := by simp [msgIdOf, hqm]
  have hprevt : prevTextOf q = some prev := by simp [prevTextOf, hqm, hprev]
  constructor
  · unfold callback_query_handler
    simp only [hq, hchat, huname, hmsgid, hprevt, honm]
    simp only [callback_dialog_turn, hfind]
  · obtain ⟨k, h1, h2, _⟩ := rewriteFirstEdit_spec (some prev) replies e hfind
    refine ⟨k, h1, ?_⟩
    rw [h2]
    simp only [transcriptLines, List.cons_append, List.nil_append]
    rw [intercalate_prev_sep]

/-- The single edit-flagged reply of the C8 witness turn. -/
def editReply : TgOutgoingMsg :=
  { user_id := 10, user_name := some "alice", text := "done",
    inline_keyboard := none, keyboard_below := none, parse_mode := none,
    edit_message_with_id := some 42 }

/-- C8 witness: a concrete callback turn against a message whose prior text
was `"old text"`; the edit reply text becomes the transcript. -/
theorem callback_edit_accumulates_transcript_witness :
    callback_query_handler (fun _ => .ok [editReply]) cbUpdateOk =
      TgAction.answerCallback ::
        TgAction.logInfo ("replacing text: " ++ prevMarker (some "old text") ++
          editReply.text) ::
        sendMessagesActions (rewriteFirstEdit (some "old text") [editReply]) ∧
    ∃ k : Nat, [editReply][k]? = some editReply ∧
      (rewriteFirstEdit (some "old text") [editReply])[k]? =
        some { editReply with
          text := "old text" ++ "\n\n" ++ editReply.text
          parse_mode := some "Markdown" } :=
  callback_edit_accumulates_transcript (fun _ => .ok [editReply]) cbUpdateOk
    ⟨some ⟨42, some "old text"⟩, some "yes"⟩ ⟨42, some "old text"⟩ "old text"
    ⟨10, some "alice"⟩ "alice" [editReply] editReply rfl rfl rfl rfl rfl rfl rfl

/-- C10: in the callback-query handler, only the first edit-flagged reply of
a dialog turn is rewritten: it gets the joined transcript text, and its
parse mode is unconditionally overwritten with `"Markdown"`, discarding
whatever mode the controller chose; every other reply of the list — in
particular every later edit-flagged one — is sent with its text and fields
unmodified. -/
theorem only_first_edit_rewritten (onMessage : OnMessage) (update : Update)
    (q : CallbackQuery) (chat : Chat) (uname : String)
    (replies : List TgOutgoingMsg) (e : TgOutgoingMsg)
    (hq : update.callback_query = some q)
    (hchat : update.effective_chat = some chat)
    (huname : chat.username = some uname)
    (honm : onMessage ⟨msgIdOf q, chat.id, uname, "", q.data⟩ = .ok replies)
    (hfind : replies.find? (fun m => m.edit_message_with_id.isSome) = some e) :
    callback_query_handler onMessage update =
      TgAction.answerCallback ::
        TgAction.logInfo ("replacing text: " ++ prevMarker (prevTextOf q) ++ e.text) ::
        sendMessagesActions (rewriteFirstEdit (prevTextOf q) replies) ∧
    ∃ k : Nat, replies[k]? = some e ∧
      (rewriteFirstEdit (prevTextOf q) replies)[k]? =
        some { e with
          text := String.intercalate "\n" (transcriptLines (prevTextOf q) ++ [e.text])
          parse_mode := some "Markdown" } ∧
      ∀ j : Nat, j ≠ k →
        (rewriteFirstEdit (prevTextOf q) replies)[j]? = replies[j]? := by
  constructor
  · unfold callback_query_handler
    simp only [hq, hchat, huname, honm]
    simp only [callback_dialog_turn, hfind]
  · exact rewriteFirstEdit_spec (prevTextOf q) replies e hfind

/-- Concrete callback update without an attached message (no prior text),
for the C10 witness. -/
def cbUpdateNoMsg : Update :=
  { callback_query := some ⟨none, some "pick"⟩,
    effective_chat := some ⟨11, some "bob"⟩, message := none }

/-- Plain (send) reply of the C10 witness turn. -/
def plainReply : TgOutgoingMsg :=
  { user_id := 11, user_name := some "bob", text := "ack",
    inline_keyboard := none, keyboard_below := none, parse_mode := none,
    edit_message_with_id := none }

/-- First edit-flagged reply of the C10 witness turn. -/
def editA : TgOutgoingMsg :=
  { user_id := 11, user_name := some "bob", text := "first",
    inline_keyboard := none, keyboard_below := none, parse_mode := some "HTML",
    edit_message_with_id := some 5 }

/-- Second edit-flagged reply of the C10 witness turn. -/
def editB : TgOutgoingMsg :=
  { user_id := 11, user_name := some "bob", text := "second",
    inline_keyboard := none, keyboard_below := none, parse_mode := some "HTML",
    edit_message_with_id := some 6 }

/-- C10 witness: with replies `[plain, editA, editB]`, only `editA` (index 1)
is rewritten; `plain` and the later edit `editB` pass through unchanged. -/
theorem only_first_edit_rewritten_witness :
    callback_query_handler (fun _ => .ok [plainReply, editA, editB]) cbUpdateNoMsg =
      TgAction.answerCallback ::
        TgAction.logInfo ("replacing text: " ++
          prevMarker (prevTextOf ⟨none, some "pick"⟩) ++ editA.text) ::
        sendMessagesActions
          (rewriteFirstEdit (prevTextOf ⟨none, some "pick"⟩)
            [plainReply, editA, editB]) ∧
    ∃ k : Nat, [plainReply, editA, editB][k]? = some editA ∧
      (rewriteFirstEdit (prevTextOf ⟨none, some "pick"⟩)
          [plainReply, editA, editB])[k]? =
        some { editA with
          text := String.intercalate "\n"
            (transcriptLines (prevTextOf ⟨none, some "pick"⟩) ++ [editA.text])
          parse_mode := some "Markdown" } ∧
      ∀ j : Nat, j ≠ k →
        (rewriteFirstEdit (prevTextOf ⟨none, some "pick"⟩)
          [plainReply, editA, editB])[j]? = [plainReply, editA, editB][j]? :=
  only_first_edit_rewritten (fun _ => .ok [plainReply, editA, editB]) cbUpdateNoMsg
    ⟨none, some "pick"⟩ ⟨11, some "bob"⟩ "bob" [plainReply, editA, editB] editA
    rfl rfl rfl rfl rfl
